import Mathlib

/-!
# Rooted Valuation Backend — verification of the valuation engine

Shallow embedding of the pure valuation engine of the repository
(`app.py` and `valuation.py`).  Python floats are modelled as exact
rationals (`ℚ`); Python integers as `ℤ`.  A Python float division that can
raise `ZeroDivisionError` is modelled by an `Option` result: the guard of
the `Option` is exactly the condition under which some division in the
Python function divides by zero.  Python `str.lower` and the substring
operator `in` are modelled on ASCII character lists, which covers every
string the engine's keyword tables compare against.
-/

namespace RootedValuation

/-- `leadsWith hay needle`: `hay` begins with `needle` (character lists). -/
def leadsWith : List Char → List Char → Bool
  | _, [] => true
  | [], _ :: _ => false
  | a :: as, b :: bs => (a = b) && leadsWith as bs

/-- `hasSub hay needle`: `needle` occurs as a contiguous substring of `hay`;
this is Python's `needle in hay` on strings. -/
def hasSub : List Char → List Char → Bool
  | [], needle => needle.isEmpty
  | a :: as, needle => leadsWith (a :: as) needle || hasSub as needle

/-- Python `sub in s` on strings. -/
def strContains (s sub : String) : Bool :=
  hasSub s.data sub.data

/-- Python `s.lower()`: lowercase each character (`Char.toLower` agrees with
Python on the ASCII range, which covers every keyword the engine tests). -/
def lowerStr (s : String) : String :=
  ⟨s.data.map Char.toLower⟩

/-- `app.py` `clamp(x, lo, hi) = max(lo, min(hi, x))`. -/
def clamp (x lo hi : ℚ) : ℚ := max lo (min hi x)

/-- `app.py` `region_adjustment`: lowercases the region text and matches the
fixed ordered keyword list, first match winning. -/
def region_adjustment (region : String) : ℚ :=
  let r := lowerStr region
  if strContains r "gta" || strContains r "toronto" then 2/100
  else if strContains r "ottawa" || strContains r "waterloo" then 1/100
  else if strContains r "northern" then -(1/100)
  else 0

/-- `app.py` `practice_adjustment`: lowercases the practice-type text and
matches the fixed ordered keyword list, first match winning. -/
def practice_adjustment (practice_type : String) : ℚ :=
  let pt := lowerStr practice_type
  if strContains pt "orth" then 15/100
  else if strContains pt "endo" then 10/100
  else if strContains pt "oral" then 10/100
  else if strContains pt "pedo" then 5/100
  else if strContains pt "perio" then 5/100
  else 0

/-- `app.py` `infer_margin`.  The Python guard is
`if ebitda_margin_pct and ebitda_margin_pct > 0`, i.e. float truthiness
(nonzero) conjoined with positivity; `h = hygiene_pct or 0.0` is the
identity on a non-`None` float. -/
def infer_margin (hygiene_pct ebitda_margin_pct : ℚ) : ℚ :=
  if ebitda_margin_pct ≠ 0 ∧ 0 < ebitda_margin_pct then
    clamp ebitda_margin_pct (8/100) (35/100)
  else
    clamp (16/100 + max 0 (hygiene_pct - 30/100) * (35/100)) (12/100) (28/100)

/-- The `for t in range(1, n+1)` loop of `app.py`'s `dcf_5y`: state is the
pair `(pv, rev)`; each period first grows `rev`, then discounts
`rev * margin` by `(1+discount)^t`. -/
def dcfLoop (margin growth discount rev0 : ℚ) : ℕ → ℚ × ℚ
  | 0 => (0, rev0)
  | n + 1 =>
    let s := dcfLoop margin growth discount rev0 n
    let rev := s.2 * (1 + growth)
    let cf := rev * margin
    (s.1 + cf / (1 + discount) ^ (n + 1), rev)

/-- `app.py` `dcf_5y`.  `none` exactly when some Python division raises
`ZeroDivisionError`: the loop divides by `(1+discount)^t` (zero iff
`1 + discount = 0`) and the terminal value divides by
`discount - 0.02`. -/
def dcf_5y (rev0 margin growth discount : ℚ) : Option ℚ :=
  if 1 + discount = 0 ∨ discount - 2/100 = 0 then none
  else
    let s := dcfLoop margin growth discount rev0 5
    let g_term : ℚ := 2/100
    let cf5 := s.2 * margin
    let tv := cf5 * (1 + g_term) / (discount - g_term)
    some (max (s.1 + tv / (1 + discount) ^ 5) 0)

/-- The `for t in range(1, years+1)` loop of `valuation.py`'s `simple_dcf`:
state is `(pv, collections)`; each period first discounts
`collections * margin` by `(1+discount)^t`, then grows `collections`. -/
def simpleLoop (margin_pct growth_pct discount_rate start : ℚ) : ℕ → ℚ × ℚ
  | 0 => (0, start)
  | n + 1 =>
    let s := simpleLoop margin_pct growth_pct discount_rate start n
    let ocf := s.2 * margin_pct
    (s.1 + ocf / (1 + discount_rate) ^ (n + 1), s.2 * (1 + growth_pct))

/-- `valuation.py` `simple_dcf`.  `none` exactly when some Python division
raises `ZeroDivisionError`: the loop divides by `(1+discount_rate)^t` for
`t = 1..years`, so a zero denominator needs `1 + discount_rate = 0` and at
least one iteration; the final division by `(1+discount_rate)^years` is by
`1` when `years = 0`. -/
def simple_dcf (start_collections margin_pct growth_pct : ℚ) (years : ℕ)
    (discount_rate terminal_rev_pct : ℚ) : Option ℚ :=
  if 1 + discount_rate = 0 ∧ 1 ≤ years then none
  else
    let s := simpleLoop margin_pct growth_pct discount_rate start_collections years
    let terminal_value := terminal_rev_pct * s.2
    some (s.1 + terminal_value / (1 + discount_rate) ^ years)

/-- `app.py` `ValuationRequest` (pydantic model).  Optional fields carry
their pydantic defaults; the engine's `x or 0` / `x or ""` coercions are
the identity on non-`None` values of these types, so the fields are
modelled as plain values. -/
structure ValuationRequest where
  collections_2024 : ℚ
  collections_2025 : ℚ
  region : String
  practice_type : String
  ops : ℤ
  equipped_ops : ℤ
  sqft : ℤ
  active_patients : ℤ
  hygiene_pct : ℚ
  ebitda_margin_pct : ℚ
deriving Repr, DecidableEq

/-- The dict returned by `app.py` `goodwill_rail`. -/
structure GoodwillResult where
  weighted_revenue : ℚ
  province_factor : ℚ
  adjustments : ℚ
  goodwill : ℚ
deriving Repr, DecidableEq

/-- The dict returned by `app.py` `asset_rail_only`. -/
structure AssetResult where
  leaseholds : ℚ
  equipment : ℚ
  supplies : ℚ
  assets_only : ℚ
deriving Repr, DecidableEq

/-- The dict returned by `app.py` `income_rail`. -/
structure IncomeResult where
  margin : ℚ
  growth : ℚ
  discount : ℚ
  dcf_value : ℚ
deriving Repr, DecidableEq

/-- The dict returned by `app.py` `compute_components` (the `"inputs"` echo
of the request is omitted; the `"blending"` sub-dict is inlined). -/
structure Components where
  goodwill : GoodwillResult
  assets : AssetResult
  income : IncomeResult
  asset_plus_goodwill : ℚ
  w_income : ℚ
  w_assetgw : ℚ
  final_value : ℚ
deriving Repr, DecidableEq

/-- `app.py` `goodwill_rail`. -/
def goodwill_rail (c24 c25 : ℚ) (region practice_type : String) :
    GoodwillResult :=
  let wr := (3 * c25 + 2 * c24) / 5
  let province_factor : ℚ := 95/100
  let adj := region_adjustment region + practice_adjustment practice_type
  let goodwill := max (wr * province_factor * (1 + adj)) 0
  ⟨wr, province_factor, adj, goodwill⟩

/-- Python `round` on an exact rational: round half to even (this is the
`round(float)` builtin applied to the exact value). -/
def pyround (q : ℚ) : ℤ :=
  let f := ⌊q⌋
  let frac := q - f
  if frac < 1/2 then f
  else if 1/2 < frac then f + 1
  else if f % 2 = 0 then f else f + 1

/-- `app.py` `asset_rail_only`.  `equipped_ops or int(round((ops or 0)*0.7))`
is Python truthiness: the fallback fires exactly when `equipped_ops`
is `0` (or `None`, which pydantic defaults away). -/
def asset_rail_only (sqft ops equipped_ops : ℤ) : AssetResult :=
  let leaseholds_psf : ℚ := 300
  let remaining_life : ℚ := 6857/10000
  let leaseholds : ℚ := (sqft : ℚ) * leaseholds_psf * remaining_life
  let eq_ops : ℤ :=
    if equipped_ops ≠ 0 then equipped_ops else pyround ((ops : ℚ) * (7/10))
  let equip_per_op : ℚ := 40000
  let equipment : ℚ := ((max 0 eq_ops : ℤ) : ℚ) * equip_per_op
  let supplies : ℚ := if 0 < ops then 35000 else 20000
  let total_assets := max (leaseholds + equipment + supplies) 0
  ⟨leaseholds, equipment, supplies, total_assets⟩

/-- `app.py` `income_rail`.  Propagates `dcf_5y`'s possible
`ZeroDivisionError` as `Option`. -/
def income_rail (c25 margin : ℚ) (region : String) : Option IncomeResult :=
  let r := lowerStr region
  let discount : ℚ :=
    if strContains r "gta" || strContains r "toronto" then 18/100 else 20/100
  let growth : ℚ := 3/100
  (dcf_5y c25 margin growth discount).map fun dcfv =>
    ⟨margin, growth, discount, dcfv⟩

/-- `app.py` `pick_income_weight`. -/
def pick_income_weight (margin : ℚ) : ℚ :=
  if margin < 12/100 then 30/100
  else if margin < 18/100 then 40/100
  else if margin < 24/100 then 50/100
  else 60/100

/-- `app.py` `compute_components`.  The `or 0` coercions are the identity
here (fields are non-`None`); revenues are floored at 0 exactly as in the
source. -/
def compute_components (req : ValuationRequest) : Option Components :=
  let c24 := max req.collections_2024 0
  let c25 := max req.collections_2025 0
  let margin := infer_margin req.hygiene_pct req.ebitda_margin_pct
  let gw := goodwill_rail c24 c25 req.region req.practice_type
  let ar := asset_rail_only req.sqft req.ops req.equipped_ops
  (income_rail c25 margin req.region).map fun ir =>
    let asset_plus_goodwill := gw.goodwill + ar.assets_only
    let w_income := pick_income_weight ir.margin
    let w_assetgw := 1 - w_income
    let final_val := w_income * ir.dcf_value + w_assetgw * asset_plus_goodwill
    ⟨gw, ar, ir, asset_plus_goodwill, w_income, w_assetgw, final_val⟩

/-! ## Closed forms for the two DCF loops -/

lemma dcfLoop_closed (m g d r : ℚ) (n : ℕ) :
    dcfLoop m g d r n =
      (∑ t in Finset.range n, r * (1 + g) ^ (t + 1) * m / (1 + d) ^ (t + 1),
       r * (1 + g) ^ n) := by
  induction n with
  | zero => simp [dcfLoop]
  | succ k ih =>
    simp only [dcfLoop, ih, Finset.sum_range_succ, Prod.mk.injEq]
    constructor <;> ring

lemma simpleLoop_closed (m g d s : ℚ) (n : ℕ) :
    simpleLoop m g d s n =
      (∑ t in Finset.range n, s * (1 + g) ^ t * m / (1 + d) ^ (t + 1),
       s * (1 + g) ^ n) := by
  induction n with
  | zero => simp [simpleLoop]
  | succ k ih =>
    simp only [simpleLoop, ih, Finset.sum_range_succ, Prod.mk.injEq]
    constructor <;> ring

lemma dcf_5y_eq (r m g d : ℚ) (h1 : 1 + d ≠ 0) (h2 : d ≠ 2/100) :
    dcf_5y r m g d =
      some (max ((∑ t in Finset.range 5,
          r * (1 + g) ^ (t + 1) * m / (1 + d) ^ (t + 1)) +
        r * (1 + g) ^ 5 * m * (1 + 2/100) / (d - 2/100) / (1 + d) ^ 5) 0) := by
  rw [dcf_5y, if_neg (by push_neg; exact ⟨h1, sub_ne_zero.mpr h2⟩)]
  simp only [dcfLoop_closed]

lemma simple_dcf_eq (s m g : ℚ) (N : ℕ) (d trp : ℚ) (h1 : 1 + d ≠ 0) :
    simple_dcf s m g N d trp =
      some ((∑ t in Finset.range N, s * (1 + g) ^ t * m / (1 + d) ^ (t + 1)) +
        trp * (s * (1 + g) ^ N) / (1 + d) ^ N) := by
  rw [simple_dcf, if_neg (by exact fun hc => h1 hc.1)]
  simp only [simpleLoop_closed]

/-! ## Claim theorems -/

/-- Claim C1: the claim states that for every discount rate at or below the
terminal growth rate 0.02, `dcf_5y` detects the non-positive Gordon-growth
denominator and fails with a clearly named computation error.  The code has
no such guard: at `discount = 0.01 < 0.02` it silently returns the clamped
numeric valuation `0.0`, and at `discount = 0.02` it dies with an anonymous
`ZeroDivisionError` (modelled `none`) rather than a named computation
error.  This theorem evaluates the code at those failing inputs. -/
theorem C1_no_degenerate_guard :
    dcf_5y 100000 (20/100) (3/100) (1/100) = some 0 ∧
    dcf_5y 100000 (20/100) (3/100) (2/100) = none := by
  constructor
  · norm_num [dcf_5y, dcfLoop, max_def]
  · norm_num [dcf_5y]

/-- Claim C4 (counterexample): the claim says both DCF variants use the
period-`t` cash flow `rev0 * (1+g)^t * margin`.  For `simple_dcf` with
`start = 100, margin = 1, growth = 1, years = 1, discount = 1, trp = 0`
the claimed formula gives `100 * (1+1)^1 * 1 / (1+1)^1 + 0 = 100`, but the
code returns `50`: `simple_dcf` grows revenue only after computing the
period's cash flow. -/
theorem C4_growth_timing_counterexample :
    simple_dcf 100 1 1 1 1 0 = some 50 ∧
    (100 * (1 + 1) ^ 1 * 1 / (1 + 1) ^ 1 +
      0 * (100 * (1 + 1) ^ 1) / (1 + 1) ^ 1 : ℚ) = 100 ∧
    (50 : ℚ) ≠ 100 := by
  refine ⟨by norm_num [simple_dcf, simpleLoop], by norm_num, by norm_num⟩

/-- Claim C4 (amended): `dcf_5y` grows revenue before each cash flow
(period-`t` cash flow `rev0 * (1+g)^t * margin`, `t = 1..5`), while
`simple_dcf` grows it after (period-`t` cash flow
`rev0 * (1+g)^(t-1) * margin`, `t = 1..N`); each variant discounts the
period-`t` cash flow by `(1+d)^t`, sums these present values, and then adds
its terminal value discounted back `N` periods (`dcf_5y` floors the result
at 0 and needs `d ≠ 0.02` for its Gordon denominator; `simple_dcf`'s
terminal value is `trp` times the fully grown revenue `rev0 * (1+g)^N`). -/
theorem C4_cashflow_structure (rev0 m g d trp : ℚ) (N : ℕ)
    (hrev : 0 ≤ rev0) (hd : 0 < d) (hd2 : d ≠ 2/100) (hN : 1 ≤ N) :
    dcf_5y rev0 m g d =
      some (max ((∑ t in Finset.range 5,
          rev0 * (1 + g) ^ (t + 1) * m / (1 + d) ^ (t + 1)) +
        rev0 * (1 + g) ^ 5 * m * (1 + 2/100) / (d - 2/100) / (1 + d) ^ 5)
        0) ∧
    simple_dcf rev0 m g N d trp =
      some ((∑ t in Finset.range N,
          rev0 * (1 + g) ^ t * m / (1 + d) ^ (t + 1)) +
        trp * (rev0 * (1 + g) ^ N) / (1 + d) ^ N) := by
  have h1 : 1 + d ≠ 0 := by positivity
  exact ⟨dcf_5y_eq rev0 m g d h1 hd2, simple_dcf_eq rev0 m g N d trp h1⟩

/-- Witness for C4_cashflow_structure at
`rev0 = 100, m = 1, g = 1, d = 1, trp = 0, N = 1`. -/
theorem C4_cashflow_structure_witness :
    simple_dcf 100 1 1 1 1 0 =
      some ((∑ t in Finset.range 1,
          100 * (1 + 1) ^ t * 1 / (1 + 1) ^ (t + 1)) +
        0 * (100 * (1 + 1) ^ 1) / (1 + 1) ^ 1) :=
  (C4_cashflow_structure 100 1 1 1 0 1 (by norm_num) (by norm_num)
    (by norm_num) (by norm_num)).2

/-- Claim C5: `dcf_5y` at `rev0 = 100000, margin = 0.20, growth = 0.03,
discount = 0.20` equals the hand-computed reference
`Σ_{t=1..5} (0.20·100000·1.03^t)/1.20^t
  + ((0.20·100000·1.03^5)·1.02/(0.20−0.02))/1.20^5`. -/
theorem C5_dcf_reference_value :
    dcf_5y 100000 (20/100) (3/100) (20/100) =
      some (20/100 * 100000 * (103/100) ^ 1 / (120/100) ^ 1
          + 20/100 * 100000 * (103/100) ^ 2 / (120/100) ^ 2
          + 20/100 * 100000 * (103/100) ^ 3 / (120/100) ^ 3
          + 20/100 * 100000 * (103/100) ^ 4 / (120/100) ^ 4
          + 20/100 * 100000 * (103/100) ^ 5 / (120/100) ^ 5
          + (20/100 * 100000 * (103/100) ^ 5) * (102/100)
              / (20/100 - 2/100) / (120/100) ^ 5) := by
  norm_num [dcf_5y, dcfLoop, max_def]

/-- Claim C2: for every margin in `[0,1]` the two-rail weight selector
returns income weight 0.30 below 0.12, 0.40 on `[0.12, 0.18)`, 0.50 on
`[0.18, 0.24)` and 0.60 from 0.24 up; the blender gives the combined
asset+goodwill rail the remainder `1 - w_income`, so the two weights sum to
exactly 1 (hence within 1e-9 of 1). -/
theorem C2_two_rail_weights (m : ℚ) (hm0 : 0 ≤ m) (hm1 : m ≤ 1) :
    ((m < 12/100 → pick_income_weight m = 30/100) ∧
     (12/100 ≤ m → m < 18/100 → pick_income_weight m = 40/100) ∧
     (18/100 ≤ m → m < 24/100 → pick_income_weight m = 50/100) ∧
     (24/100 ≤ m → pick_income_weight m = 60/100)) ∧
    (∀ req : ValuationRequest, ∀ comps : Components,
      compute_components req = some comps →
      comps.w_income = pick_income_weight comps.income.margin ∧
      comps.w_assetgw = 1 - comps.w_income ∧
      comps.w_income + comps.w_assetgw = 1 ∧
      |comps.w_income + comps.w_assetgw - 1| ≤ 1/1000000000) := by
  constructor
  · refine ⟨?_, ?_, ?_, ?_⟩ <;> intros <;> unfold pick_income_weight <;>
      split_ifs <;> first | rfl | linarith
  · intro req comps hreq
    unfold compute_components at hreq
    rw [Option.map_eq_some'] at hreq
    obtain ⟨ir, hir, rfl⟩ := hreq
    refine ⟨rfl, rfl, by ring, ?_⟩
    have hz : pick_income_weight ir.margin +
        (1 - pick_income_weight ir.margin) - 1 = 0 := by ring
    show |pick_income_weight ir.margin +
        (1 - pick_income_weight ir.margin) - 1| ≤ 1/1000000000
    rw [hz]
    norm_num

/-- Witness for C2_two_rail_weights at `m = 0.15`. -/
theorem C2_two_rail_weights_witness :
    pick_income_weight (15/100) = 40/100 :=
  ((C2_two_rail_weights (15/100) (by norm_num) (by norm_num)).1).2.1
    (by norm_num) (by norm_num)

/-- Claim C3: `infer_margin` returns the EBITDA fraction clamped to
`[0.08, 0.35]` when that fraction is positive, and otherwise
`0.16 + max(0, hygiene - 0.30) * 0.35` clamped to `[0.12, 0.28]`; in each
branch the result never exceeds the branch's upper clamp, for arbitrary
(even extreme) inputs. -/
theorem C3_infer_margin_clamped (h e : ℚ) :
    (0 < e → infer_margin h e = clamp e (8/100) (35/100) ∧
      infer_margin h e ≤ 35/100) ∧
    (¬ 0 < e →
      infer_margin h e =
        clamp (16/100 + max 0 (h - 30/100) * (35/100)) (12/100) (28/100) ∧
      infer_margin h e ≤ 28/100) := by
  have hcl : ∀ x lo hi : ℚ, lo ≤ hi → clamp x lo hi ≤ hi := fun x lo hi hle =>
    max_le hle (min_le_left _ _)
  constructor
  · intro he
    have hc : e ≠ 0 ∧ 0 < e := ⟨ne_of_gt he, he⟩
    rw [infer_margin, if_pos hc]
    exact ⟨rfl, hcl _ _ _ (by norm_num)⟩
  · intro he
    have hc : ¬(e ≠ 0 ∧ 0 < e) := fun hx => he hx.2
    rw [infer_margin, if_neg hc]
    exact ⟨rfl, hcl _ _ _ (by norm_num)⟩

/-- Witness for C3_infer_margin_clamped at the extreme hygiene fraction
`5.0` (with no EBITDA figure): the inferred margin still clamps to 0.28. -/
theorem C3_infer_margin_clamped_witness :
    infer_margin 5 0 =
      clamp (16/100 + max 0 (5 - 30/100) * (35/100)) (12/100) (28/100) ∧
    infer_margin 5 0 ≤ 28/100 :=
  (C3_infer_margin_clamped 5 0).2 (by norm_num)

/-- Claim C7: region and practice-type adjustments are case-insensitive
substring matches against fixed ordered keyword lists with the first match
winning ("gta"/"toronto" +0.02, "ottawa"/"waterloo" +0.01, "northern"
−0.01; "orth" +0.15, "endo"/"oral" +0.10, "pedo"/"perio" +0.05); empty or
unrecognized text yields 0 and every input yields one of the listed values
(total functions, no exception).  "Toronto GTA clinic" and "TORONTO" both
yield +0.02; mixed-keyword texts show the check order. -/
theorem C7_keyword_adjustments :
    region_adjustment "Toronto GTA clinic" = 2/100 ∧
    region_adjustment "TORONTO" = 2/100 ∧
    region_adjustment "" = 0 ∧
    region_adjustment "Vancouver" = 0 ∧
    region_adjustment "Ottawa" = 1/100 ∧
    region_adjustment "Waterloo East" = 1/100 ∧
    region_adjustment "northern Ontario" = -(1/100) ∧
    region_adjustment "northern toronto" = 2/100 ∧
    practice_adjustment "" = 0 ∧
    practice_adjustment "General" = 0 ∧
    practice_adjustment "Orthodontics" = 15/100 ∧
    practice_adjustment "Endodontics" = 10/100 ∧
    practice_adjustment "Oral Surgery" = 10/100 ∧
    practice_adjustment "Pedodontics" = 5/100 ∧
    practice_adjustment "Periodontics" = 5/100 ∧
    practice_adjustment "perio endo practice" = 10/100 ∧
    (∀ s : String, strContains (lowerStr s) "gta" = true →
      region_adjustment s = 2/100) ∧
    (∀ s : String, strContains (lowerStr s) "orth" = true →
      practice_adjustment s = 15/100) ∧
    (∀ s : String, region_adjustment s = 2/100 ∨ region_adjustment s = 1/100 ∨
      region_adjustment s = -(1/100) ∨ region_adjustment s = 0) ∧
    (∀ s : String, practice_adjustment s = 15/100 ∨
      practice_adjustment s = 10/100 ∨ practice_adjustment s = 5/100 ∨
      practice_adjustment s = 0) := by
  refine ⟨rfl, rfl, rfl, rfl, rfl, rfl, rfl, rfl, rfl, rfl, rfl, rfl, rfl,
    rfl, rfl, rfl, ?_, ?_, ?_, ?_⟩
  · intro s hs
    simp [region_adjustment, hs]
  · intro s hs
    simp [practice_adjustment, hs]
  · intro s
    simp only [region_adjustment]
    split_ifs <;> tauto
  · intro s
    simp only [practice_adjustment]
    split_ifs <;> tauto

/-- Witness for the universally quantified parts of C7_keyword_adjustments:
the "gta" rule fires first on a text that also matches later rules. -/
theorem C7_keyword_adjustments_witness :
    region_adjustment "gta and waterloo" = 2/100 :=
  C7_keyword_adjustments.2.2.2.2.2.2.2.2.2.2.2.2.2.2.2.2.1
    "gta and waterloo" (by decide)

lemma pyround_nonneg (q : ℚ) (h : 0 ≤ q) : 0 ≤ pyround q := by
  have h0 : (0 : ℤ) ≤ ⌊q⌋ := Int.floor_nonneg.mpr h
  simp only [pyround]
  split_ifs <;> omega

lemma pyround_ge_one (q : ℚ) (h : 7/10 ≤ q) : 1 ≤ pyround q := by
  rcases le_or_lt 1 q with h1 | h1
  · have hf : (1 : ℤ) ≤ ⌊q⌋ := by
      rw [Int.le_floor]
      exact_mod_cast h1
    simp only [pyround]
    split_ifs <;> omega
  · have hf : ⌊q⌋ = 0 := Int.floor_eq_zero_iff.mpr ⟨by linarith, h1⟩
    simp only [pyround, hf]
    have hgt : ¬(q - ((0 : ℤ) : ℚ) < 1/2) := by push_cast; linarith
    have hgt2 : 1/2 < q - ((0 : ℤ) : ℚ) := by push_cast; linarith
    rw [if_neg hgt, if_pos hgt2]
    omega

/-- Claim C8: in heuristic mode, for nonnegative inputs the asset rail
computes leaseholds = `sqft * 300 * 0.6857`, equipment =
`effectiveEquippedOps * 40000` where the equipped-op count defaults to
`round(ops * 0.7)` when not supplied (supplied as the pydantic default 0),
supplies = 35000 when `ops > 0` and 20000 otherwise, and the total is
their sum floored at 0; with all three inputs 0 it returns zero leaseholds
and equipment, supplies 20000 and total 20000. -/
theorem C8_asset_rail_heuristics (sqft ops eops : ℤ)
    (hs : 0 ≤ sqft) (ho : 0 ≤ ops) (he : 0 ≤ eops) :
    (asset_rail_only sqft ops eops).leaseholds =
      (sqft : ℚ) * 300 * (6857/10000) ∧
    (asset_rail_only sqft ops eops).equipment =
      (((if eops = 0 then pyround ((ops : ℚ) * (7/10)) else eops) : ℤ) : ℚ)
        * 40000 ∧
    (asset_rail_only sqft ops eops).supplies =
      (if 0 < ops then (35000 : ℚ) else 20000) ∧
    (asset_rail_only sqft ops eops).assets_only =
      max ((asset_rail_only sqft ops eops).leaseholds +
        (asset_rail_only sqft ops eops).equipment +
        (asset_rail_only sqft ops eops).supplies) 0 ∧
    asset_rail_only 0 0 0 = ⟨0, 0, 20000, 20000⟩ := by
  have heq : (if eops ≠ 0 then eops else pyround ((ops : ℚ) * (7/10))) =
      (if eops = 0 then pyround ((ops : ℚ) * (7/10)) else eops) := by
    split_ifs with h1 h2 <;> tauto
  have hnn : 0 ≤ (if eops = 0 then pyround ((ops : ℚ) * (7/10)) else eops) := by
    split_ifs with h1
    · exact pyround_nonneg _ (by positivity)
    · exact he
  refine ⟨rfl, ?_, rfl, rfl, ?_⟩
  · show ((max 0 (if eops ≠ 0 then eops else pyround ((ops : ℚ) * (7/10)))
        : ℤ) : ℚ) * 40000 = _
    rw [heq, max_eq_right hnn]
  · have hz : pyround (0 : ℚ) = 0 := by
      simp [pyround]
    simp only [asset_rail_only, AssetResult.mk.injEq]
    norm_num [hz]

/-- Witness for C8_asset_rail_heuristics at `sqft = 0, ops = 0, eops = 0`
(the supplies-only case named by the claim). -/
theorem C8_asset_rail_heuristics_witness :
    (asset_rail_only 0 0 0).supplies = (if (0 : ℤ) < 0 then (35000 : ℚ) else 20000) ∧
    asset_rail_only 0 0 0 = ⟨0, 0, 20000, 20000⟩ :=
  ⟨(C8_asset_rail_heuristics 0 0 0 le_rfl le_rfl le_rfl).2.2.1,
   (C8_asset_rail_heuristics 0 0 0 le_rfl le_rfl le_rfl).2.2.2.2⟩

/-- Claim C10: with `ops > 0` and an explicitly supplied
`equipped_ops = 0`, the asset rail does not honor the zero: Python
truthiness makes it fall back to the heuristic count `round(ops * 0.7)`,
so equipment is `round(ops * 0.7) * 40000` and the whole result is
identical to calling the rail with the heuristic count itself — an
explicit zero is indistinguishable from an absent value. -/
theorem C10_explicit_zero_equipped_ops (sqft ops : ℤ) (h : 0 < ops) :
    (asset_rail_only sqft ops 0).equipment =
      ((pyround ((ops : ℚ) * (7/10)) : ℤ) : ℚ) * 40000 ∧
    asset_rail_only sqft ops 0 =
      asset_rail_only sqft ops (pyround ((ops : ℚ) * (7/10))) := by
  have h7 : (7 : ℚ)/10 ≤ (ops : ℚ) * (7/10) := by
    have h1 : (1 : ℚ) ≤ (ops : ℚ) := by exact_mod_cast h
    nlinarith
  have hp := pyround_ge_one _ h7
  have hne : pyround ((ops : ℚ) * (7/10)) ≠ 0 := by omega
  constructor
  · show ((max 0 (if (0 : ℤ) ≠ 0 then (0 : ℤ)
        else pyround ((ops : ℚ) * (7/10))) : ℤ) : ℚ) * 40000 = _
    rw [if_neg (by omega), max_eq_right (by omega)]
  · simp only [asset_rail_only, if_neg (show ¬((0 : ℤ) ≠ 0) by omega),
      if_pos hne]

/-- Witness for C10_explicit_zero_equipped_ops at `sqft = 2000, ops = 6`:
equipment falls back to `round(4.2) * 40000`. -/
theorem C10_explicit_zero_equipped_ops_witness :
    (asset_rail_only 2000 6 0).equipment =
      ((pyround (((6 : ℤ) : ℚ) * (7/10)) : ℤ) : ℚ) * 40000 :=
  (C10_explicit_zero_equipped_ops 2000 6 (by norm_num)).1

lemma pick_income_weight_bounds (m : ℚ) :
    3/10 ≤ pick_income_weight m ∧ pick_income_weight m ≤ 6/10 := by
  unfold pick_income_weight
  split_ifs <;> norm_num

lemma dcf_5y_some (r m g d : ℚ) (h1 : 1 + d ≠ 0) (h2 : d - 2/100 ≠ 0) :
    ∃ v, dcf_5y r m g d = some v ∧ 0 ≤ v := by
  rw [dcf_5y, if_neg (not_or.mpr ⟨h1, h2⟩)]
  exact ⟨_, rfl, le_max_right _ _⟩

lemma income_rail_eq (c m : ℚ) (region : String) :
    ∃ ir : IncomeResult, income_rail c m region = some ir ∧
      ir.margin = m ∧ 0 ≤ ir.dcf_value ∧
      (ir.discount = 18/100 ∨ ir.discount = 20/100) := by
  simp only [income_rail]
  split_ifs with hreg
  · obtain ⟨v, hv, hv0⟩ := dcf_5y_some c m (3/100) (18/100)
      (by norm_num) (by norm_num)
    refine ⟨⟨m, 3/100, 18/100, v⟩, ?_, rfl, hv0, Or.inl rfl⟩
    rw [hv, Option.map_some']
  · obtain ⟨v, hv, hv0⟩ := dcf_5y_some c m (3/100) (20/100)
      (by norm_num) (by norm_num)
    refine ⟨⟨m, 3/100, 20/100, v⟩, ?_, rfl, hv0, Or.inr rfl⟩
    rw [hv, Option.map_some']

/-- Claim C6: for every request with nonnegative revenue figures and
operational counts the engine's monetary outputs are all nonnegative —
goodwill rail value, asset rail total, DCF value, and the blended final
value; in particular the goodwill rail is nonnegative for all nonnegative
revenue pairs. -/
theorem C6_nonneg_outputs (req : ValuationRequest)
    (h24 : 0 ≤ req.collections_2024) (h25 : 0 ≤ req.collections_2025)
    (hops : 0 ≤ req.ops) (heqo : 0 ≤ req.equipped_ops) (hsq : 0 ≤ req.sqft)
    (hap : 0 ≤ req.active_patients) :
    (∃ comps : Components, compute_components req = some comps ∧
      0 ≤ comps.goodwill.goodwill ∧ 0 ≤ comps.assets.assets_only ∧
      0 ≤ comps.income.dcf_value ∧ 0 ≤ comps.final_value) ∧
    (∀ (prev curr : ℚ) (r pt : String), 0 ≤ prev → 0 ≤ curr →
      0 ≤ (goodwill_rail prev curr r pt).goodwill) := by
  constructor
  · obtain ⟨ir, hir, hm, hdv, hd⟩ := income_rail_eq (max req.collections_2025 0)
      (infer_margin req.hygiene_pct req.ebitda_margin_pct) req.region
    have hcc : compute_components req = some
        ⟨goodwill_rail (max req.collections_2024 0) (max req.collections_2025 0)
            req.region req.practice_type,
         asset_rail_only req.sqft req.ops req.equipped_ops, ir,
         (goodwill_rail (max req.collections_2024 0) (max req.collections_2025 0)
            req.region req.practice_type).goodwill +
           (asset_rail_only req.sqft req.ops req.equipped_ops).assets_only,
         pick_income_weight ir.margin, 1 - pick_income_weight ir.margin,
         pick_income_weight ir.margin * ir.dcf_value +
           (1 - pick_income_weight ir.margin) *
             ((goodwill_rail (max req.collections_2024 0)
                 (max req.collections_2025 0) req.region
                 req.practice_type).goodwill +
               (asset_rail_only req.sqft req.ops req.equipped_ops).assets_only)⟩ := by
      simp only [compute_components]
      rw [hir, Option.map_some']
    have hw := pick_income_weight_bounds ir.margin
    have hgw : (0:ℚ) ≤ (goodwill_rail (max req.collections_2024 0)
        (max req.collections_2025 0) req.region req.practice_type).goodwill :=
      le_max_right _ _
    have har : (0:ℚ) ≤ (asset_rail_only req.sqft req.ops
        req.equipped_ops).assets_only := le_max_right _ _
    exact ⟨_, hcc, hgw, har, hdv,
      add_nonneg (mul_nonneg (by linarith [hw.1]) hdv)
        (mul_nonneg (by linarith [hw.2]) (add_nonneg hgw har))⟩
  · intro prev curr r pt h1 h2
    exact le_max_right _ _

/-- The end-to-end request of spec §8 / claim C9. -/
def req0 : ValuationRequest :=
  ⟨900000, 1000000, "GTA", "General", 6, 4, 2000, 0, 35/100, 0⟩

/-- Witness for C6_nonneg_outputs at the concrete request `req0`. -/
theorem C6_nonneg_outputs_witness :
    ∃ comps : Components, compute_components req0 = some comps ∧
      0 ≤ comps.goodwill.goodwill ∧ 0 ≤ comps.assets.assets_only ∧
      0 ≤ comps.income.dcf_value ∧ 0 ≤ comps.final_value :=
  (C6_nonneg_outputs req0 (by norm_num [req0]) (by norm_num [req0])
    (by norm_num [req0]) (by norm_num [req0]) (by norm_num [req0])
    (by norm_num [req0])).1

lemma compute_components_req0 :
    compute_components req0 = some
      ⟨⟨960000, 95/100, 2/100, 930240⟩,
       ⟨411420, 160000, 35000, 606420⟩,
       ⟨1775/10000, 3/100, 18/100, 910923592560625/775511104⟩,
       1536660, 40/100, 60/100, 539693786433917/387755552⟩ := by
  have hg : strContains (lowerStr "GTA") "gta" = true := rfl
  have hp1 : strContains (lowerStr "General") "orth" = false := rfl
  have hp2 : strContains (lowerStr "General") "endo" = false := rfl
  have hp3 : strContains (lowerStr "General") "oral" = false := rfl
  have hp4 : strContains (lowerStr "General") "pedo" = false := rfl
  have hp5 : strContains (lowerStr "General") "perio" = false := rfl
  norm_num [compute_components, req0, infer_margin, clamp, goodwill_rail,
    region_adjustment, practice_adjustment, asset_rail_only, income_rail,
    dcf_5y, dcfLoop, pick_income_weight, hg, hp1, hp2, hp3, hp4, hp5,
    max_def, min_def]

/-- Claim C9: on the request
`{collections_2024: 900000, collections_2025: 1000000, region: "GTA",
practice_type: "General", ops: 6, equipped_ops: 4, sqft: 2000,
hygiene_pct: 0.35}` the engine's final value is the weighted combination
of three strictly positive rail values, the goodwill multiplier includes
the +0.02 region adjustment, and the income rail uses the 18% GTA discount
override; any region matching neither "gta" nor "toronto" uses 20%. -/
theorem C9_gta_scenario :
    (∃ comps : Components, compute_components req0 = some comps ∧
      0 < comps.goodwill.goodwill ∧ 0 < comps.assets.assets_only ∧
      0 < comps.income.dcf_value ∧
      comps.goodwill.adjustments = 2/100 ∧
      comps.goodwill.goodwill = comps.goodwill.weighted_revenue * (95/100) *
        (1 + comps.goodwill.adjustments) ∧
      comps.income.discount = 18/100 ∧
      comps.w_income = 40/100 ∧ comps.w_assetgw = 60/100 ∧
      comps.final_value = comps.w_income * comps.income.dcf_value +
        comps.w_assetgw *
          (comps.goodwill.goodwill + comps.assets.assets_only)) ∧
    (∀ region : String, strContains (lowerStr region) "gta" = false →
      strContains (lowerStr region) "toronto" = false →
      ∀ c m : ℚ, ∃ ir : IncomeResult,
        income_rail c m region = some ir ∧ ir.discount = 20/100) := by
  constructor
  · exact ⟨_, compute_components_req0, by norm_num, by norm_num, by norm_num,
      by norm_num, by norm_num, by norm_num, by norm_num, by norm_num,
      by norm_num⟩
  · intro region hg ht c m
    obtain ⟨v, hv, hv0⟩ := dcf_5y_some c m (3/100) (20/100)
      (by norm_num) (by norm_num)
    refine ⟨⟨m, 3/100, 20/100, v⟩, ?_, rfl⟩
    simp only [income_rail, hg, ht, Bool.or_self, Bool.false_eq_true,
      if_false]
    rw [hv, Option.map_some']

/-- Witness for the universally quantified part of C9_gta_scenario: region
"Ottawa" matches neither "gta" nor "toronto", so the DCF runs at the 20%
discount rate. -/
theorem C9_gta_scenario_witness :
    ∃ ir : IncomeResult, income_rail 1000000 (1775/10000) "Ottawa" = some ir ∧
      ir.discount = 20/100 :=
  C9_gta_scenario.2 "Ottawa" rfl rfl 1000000 (1775/10000)

end RootedValuation
